import Mathlib

/-!
Shallow embedding of the streaming chat backend (FastAPI application):
the conversation store and its CRUD operations (crud.py), the provider
factory and the per-backend stream adapters, and the stream orchestrator
`stream_and_save` / `chat_stream` endpoint (main.py).

Modelling conventions:
* Identifiers (user ids, session ids) are `Nat`.
* The store is the pair of the `sessions` and `messages` tables; messages
  are kept in insertion order and `created_at` is a monotonically
  increasing counter, so ordering by `created_at` coincides with list
  order.
* The network side of an adapter call is an input: `Upstream` lists the
  text fragments the adapter will yield in order, and an optional
  exception message the adapter raises (as `str(e)`) after the last
  fragment.
* `request.is_disconnected()` is polled once per pulled fragment; the
  poll results are an input function from the poll index to `Bool`.
* The observable behaviour of one request is a trace of `Act`s:
  store writes, the adapter invocation with its arguments, and the
  server-sent events yielded to the client.
-/

/-- One row of the `messages` table (models.Message): owning session,
role ("user" or "assistant"), text content, creation timestamp. -/
structure MessageRec where
  session_id : Nat
  role : String
  content : String
  created_at : Nat
deriving Repr, DecidableEq

/-- One row of the `sessions` table (models.Session): id and owning user. -/
structure SessionRec where
  id : Nat
  user_id : Nat
deriving Repr, DecidableEq

/-- The database state seen by this request: sessions and messages tables. -/
structure Store where
  sessions : List SessionRec
  messages : List MessageRec
deriving Repr, DecidableEq

/-- crud.get_session: first session matching both the session id and the
user id (ownership check). -/
def get_session (db : Store) (session_id : Nat) (user_id : Nat) : Option SessionRec :=
  db.sessions.find? (fun s => s.id == session_id && s.user_id == user_id)

/-- crud.create_message: appends a message row for the given session.
The `user_id` argument is accepted but never used by the source. -/
def create_message (db : Store) (role : String) (session_id : Nat)
    (content : String) (user_id : Nat) : Store :=
  let _ := user_id
  { db with
    messages := db.messages ++ [⟨session_id, role, content, db.messages.length⟩] }

/-- crud.get_messages: all messages filtered by session id only (the
`user_id` argument is accepted but never used by the source), ordered by
`created_at` — which is list order, as `created_at` is monotone. -/
def get_messages (db : Store) (session_id : Nat) (user_id : Nat) : List MessageRec :=
  let _ := user_id
  db.messages.filter (fun m => m.session_id == session_id)

/-- The four provider classes the factory can construct. -/
inductive ProviderKind where
  | openai
  | gemini
  | anthropic
  | ollama
deriving Repr, DecidableEq

/-- AIProviderFactory.get_provider: dispatch on the provider name;
an unknown name raises ValueError with this exact message. -/
def AIProviderFactory.get_provider (provider_name : String) : Except String ProviderKind :=
  if provider_name = "openai" then Except.ok ProviderKind.openai
  else if provider_name = "gemini" then Except.ok ProviderKind.gemini
  else if provider_name = "anthropic" then Except.ok ProviderKind.anthropic
  else if provider_name = "ollama" then Except.ok ProviderKind.ollama
  else Except.error ("Unsupported provider: " ++ provider_name)

/-- Whether the provider's stream_chat signature has a third (history)
parameter. In the source only OpenAIProvider.stream_chat is declared as
(self, prompt, model, history=[]); GeminiProvider, AnthropicProvider and
OllamaProvider declare (self, prompt, model) only, so the orchestrator's
three-argument call raises TypeError for them. -/
def stream_chat_accepts_history : ProviderKind → Bool
  | ProviderKind.openai => true
  | ProviderKind.gemini => false
  | ProviderKind.anthropic => false
  | ProviderKind.ollama => false

/-- The str(e) of the TypeError CPython raises when stream_chat is called
with a history argument the signature does not accept. -/
def typeErrorMessage : String :=
  "stream_chat() takes 3 positional arguments but 4 were given"

/-- One OpenAI stream chunk: the list of choices, each carrying an
optional delta.content string. -/
structure OpenAIChunk where
  choices : List (Option String)
deriving Repr, DecidableEq

/-- OpenAIProvider.stream_chat, as a function from the decoded upstream
chunks to the yielded fragments: a chunk with no choices is skipped, a
None or empty-string content is skipped (`if content:`). -/
def OpenAIProvider.stream_chat (chunks : List OpenAIChunk) : List String :=
  chunks.filterMap (fun c =>
    match c.choices with
    | [] => none
    | content :: _ =>
      match content with
      | none => none
      | some s => if s = "" then none else some s)

/-- GeminiProvider.stream_chat, as a function from the chunk texts to the
yielded fragments: an empty chunk.text is skipped (`if chunk.text:`). -/
def GeminiProvider.stream_chat (chunks : List String) : List String :=
  chunks.filterMap (fun t => if t = "" then none else some t)

/-- AnthropicProvider.stream_chat, as a function from the text_stream
items to the yielded fragments: every item is yielded unconditionally. -/
def AnthropicProvider.stream_chat (texts : List String) : List String :=
  texts

/-- One decoded line of the Ollama response body: either a line that is
not valid JSON (skipped with a log message), or a JSON object with an
optional "response" field and the truthiness of its "done" field. -/
inductive OllamaLine where
  | malformed
  | obj (response : Option String) (done : Bool)
deriving Repr, DecidableEq

/-- OllamaProvider.stream_chat, as a function from the decoded body lines
to the yielded fragments: a line without a "response" key or with a truthy
"done" is skipped, otherwise the "response" value is yielded verbatim —
including when it is the empty string. -/
def OllamaProvider.stream_chat (lines : List OllamaLine) : List String :=
  lines.filterMap (fun l =>
    match l with
    | OllamaLine.malformed => none
    | OllamaLine.obj none _ => none
    | OllamaLine.obj (some r) d => if d then none else some r)

/-- A server-sent event yielded to the client: a delta fragment, the
[DONE] sentinel, or an error payload carrying str(e). -/
inductive Event where
  | delta (text : String)
  | done
  | error (message : String)
deriving Repr, DecidableEq

/-- One observable action of a request: a store write (create_message),
the adapter invocation with its (prompt, model, history) arguments, or a
yielded client event. -/
inductive Act where
  | save (role : String) (content : String)
  | invoke (prompt : String) (model : String) (history : List (String × String))
  | emit (e : Event)
deriving Repr, DecidableEq

/-- Projection of a trace to the events yielded to the client. -/
def emittedEvents (tr : List Act) : List Event :=
  tr.filterMap (fun a =>
    match a with
    | Act.emit e => some e
    | _ => none)

/-- The behaviour of the adapter's upstream on this call: the fragments
it will yield in order, and, if `failMsg = some e`, the str of the
exception it raises when pulled after the last fragment. -/
structure Upstream where
  frags : List String
  failMsg : Option String
deriving Repr, DecidableEq

/-- schemas.ChatRequest: body of POST /chat/stream. -/
structure ChatRequest where
  session_id : Nat
  prompt : String
  provider : String
  model : String
deriving Repr, DecidableEq

/-- Result of the `async for token` relay loop: the delta events yielded,
the final accumulator `full_response`, and whether the loop ended by the
disconnect `break`. -/
structure RelayResult where
  acts : List Act
  full_response : String
  disconnected : Bool
deriving Repr, DecidableEq

/-- The body of the `async for token in ai_provider.stream_chat(...)`
loop: pull a token, poll `request.is_disconnected()` (poll index `i`) and
break if true, else yield the delta event and append the token to
`full_response`. -/
def relay (is_disconnected : Nat → Bool) : List String → Nat → String → RelayResult
  | [], _, acc => ⟨[], acc, false⟩
  | token :: rest, i, acc =>
    if is_disconnected i then ⟨[], acc, true⟩
    else
      let r := relay is_disconnected rest (i + 1) (acc ++ token)
      ⟨Act.emit (Event.delta token) :: r.acts, r.full_response, r.disconnected⟩

/-- The history the orchestrator assembles and passes to the adapter:
lines 185 and 190-191 of main.py — the user message is saved first, then
get_messages is called on the updated store and mapped to role/content
pairs. -/
def history_passed_to_adapter (payload : ChatRequest) (db : Store) (user_id : Nat) :
    List (String × String) :=
  let db1 := create_message db "user" payload.session_id payload.prompt user_id
  (get_messages db1 payload.session_id user_id).map (fun m => (m.role, m.content))

/-- Lines 200-203 of main.py, reached both on normal stream end and after
the disconnect break: persist `full_response` as an assistant message if
it is non-empty, then yield the [DONE] sentinel. -/
def finishStream (payload : ChatRequest) (db1 : Store) (user_id : Nat)
    (acts : List Act) (full_response : String) : List Act × Store :=
  if full_response = "" then
    (acts ++ [Act.emit Event.done], db1)
  else
    (acts ++ [Act.save "assistant" full_response, Act.emit Event.done],
     create_message db1 "assistant" payload.session_id full_response user_id)

/-- stream_and_save (main.py lines 182-209): save the user message, then
inside the try block assemble history, resolve the provider, call its
stream_chat (TypeError if the signature lacks the history parameter), run
the relay loop, and on normal end or disconnect persist-and-[DONE]; any
exception (unknown provider, TypeError, upstream failure) is caught and
yielded as a single error event carrying str(e), with nothing persisted
by the except path. Returns the action trace and the final store. -/
def stream_and_save (is_disconnected : Nat → Bool) (upstream : Upstream)
    (payload : ChatRequest) (db : Store) (user_id : Nat) : List Act × Store :=
  let db1 := create_message db "user" payload.session_id payload.prompt user_id
  let acts0 := [Act.save "user" payload.prompt]
  let history := history_passed_to_adapter payload db user_id
  match AIProviderFactory.get_provider payload.provider with
  | Except.error e => (acts0 ++ [Act.emit (Event.error e)], db1)
  | Except.ok p =>
    if stream_chat_accepts_history p then
      let r := relay is_disconnected upstream.frags 0 ""
      let acts1 := acts0 ++ [Act.invoke payload.prompt payload.model history] ++ r.acts
      if r.disconnected then
        finishStream payload db1 user_id acts1 r.full_response
      else
        match upstream.failMsg with
        | some e => (acts1 ++ [Act.emit (Event.error e)], db1)
        | none => finishStream payload db1 user_id acts1 r.full_response
    else
      (acts0 ++ [Act.emit (Event.error typeErrorMessage)], db1)

/-- chat_stream (main.py lines 211-219): validate that the session exists
and is owned by the caller; on failure raise HTTPException 404 "Session
not found" before the stream opens (no store mutation), otherwise run
stream_and_save. -/
def chat_stream (is_disconnected : Nat → Bool) (upstream : Upstream)
    (payload : ChatRequest) (db : Store) (user_id : Nat) :
    Except String (List Act × Store) :=
  match get_session db payload.session_id user_id with
  | none => Except.error "Session not found"
  | some _ => Except.ok (stream_and_save is_disconnected upstream payload db user_id)

/-- Helper: when the client never disconnects, the relay loop yields one
delta event per fragment in order, accumulates their concatenation, and
does not break. -/
theorem relay_no_disconnect (frags : List String) (i : Nat) (acc : String) :
    relay (fun _ => false) frags i acc
      = ⟨frags.map (fun t => Act.emit (Event.delta t)),
         frags.foldl (fun a t => a ++ t) acc, false⟩ := by
  induction frags generalizing i acc with
  | nil => rfl
  | cons t rest ih => simp [relay, ih]

/-- Claim C2: the history stream_and_save assembles and passes to the
provider adapter is the session's prior messages FOLLOWED BY the just
persisted in-flight prompt of this turn: the user message is saved
(line 185) before get_messages is called (line 190), so the history list
contains N entries ending in ("user", prompt), not the N-1 strictly prior
ones — the prompt is additionally passed as the separate prompt argument,
so it reaches the adapter twice. -/
theorem C2_history_contains_inflight_prompt (payload : ChatRequest) (db : Store) (uid : Nat) :
    history_passed_to_adapter payload db uid
      = (get_messages db payload.session_id uid).map (fun m => (m.role, m.content))
        ++ [("user", payload.prompt)] := by
  simp [history_passed_to_adapter, create_message, get_messages, List.filter_append]

/-- Claim C6: the store operations are not scoped to the acting user's
ownership. In a store whose only session 1 is owned by user 10 and holds
the message "secret", acting user 20 does not own session 1 (get_session
returns none), yet get_messages called with user id 20 returns user 10's
message, and create_message called with user id 20 appends a message into
user 10's session. -/
theorem C6_cross_user_access :
    get_session ⟨[⟨1, 10⟩], [⟨1, "user", "secret", 0⟩]⟩ 1 20 = none ∧
    get_messages ⟨[⟨1, 10⟩], [⟨1, "user", "secret", 0⟩]⟩ 1 20 = [⟨1, "user", "secret", 0⟩] ∧
    (create_message ⟨[⟨1, 10⟩], [⟨1, "user", "secret", 0⟩]⟩ "user" 1 "x" 20).messages
      = [⟨1, "user", "secret", 0⟩, ⟨1, "user", "x", 1⟩] := by
  decide

/-- Claim C8: when the session does not exist or is not owned by the
caller (get_session returns none), chat_stream terminates with the 404
"Session not found" error before the stream opens; no trace is produced
and no store write occurs. -/
theorem C8_not_found (is_disconnected : Nat → Bool) (upstream : Upstream)
    (payload : ChatRequest) (db : Store) (uid : Nat)
    (h : get_session db payload.session_id uid = none) :
    chat_stream is_disconnected upstream payload db uid
      = Except.error "Session not found" := by
  simp [chat_stream, h]

/-- Witness for C8: session 1 is owned by user 10, so user 20's request
for it fails with "Session not found". -/
theorem C8_not_found_witness :
    get_session ⟨[⟨1, 10⟩], []⟩ 1 20 = none ∧
    chat_stream (fun _ => false) ⟨[], none⟩ ⟨1, "hi", "openai", "m"⟩ ⟨[⟨1, 10⟩], []⟩ 20
      = Except.error "Session not found" :=
  ⟨by decide, C8_not_found (fun _ => false) ⟨[], none⟩ ⟨1, "hi", "openai", "m"⟩
    ⟨[⟨1, 10⟩], []⟩ 20 (by decide)⟩

/-- Counterexample to claim C9: the Ollama adapter, on a payload line
whose "response" field is the empty string and whose "done" field is
false, yields the empty string as a fragment instead of emitting
nothing. -/
theorem C9_counterexample :
    OllamaProvider.stream_chat [OllamaLine.obj (some "") false] = [""] := by
  decide

/-- Claim C9 amended: the OpenAI and Gemini adapters never yield an empty
fragment (payloads with no choices, a missing text field, or an empty
text field are filtered), but the Ollama adapter yields the "response"
field verbatim even when it is empty (see the counterexample), so the
no-empty-fragment guarantee holds only for OpenAI and Gemini. -/
theorem C9_amended (chunks : List OpenAIChunk) (gchunks : List String) :
    "" ∉ OpenAIProvider.stream_chat chunks ∧ "" ∉ GeminiProvider.stream_chat gchunks := by
  constructor
  · intro hmem
    obtain ⟨c, _, hc⟩ := List.mem_filterMap.mp hmem
    rcases c with ⟨choices⟩
    rcases choices with _ | ⟨content, rest⟩
    · simp at hc
    · rcases content with _ | s
      · simp at hc
      · by_cases hs : s = "" <;> simp [hs] at hc
  · intro hmem
    obtain ⟨t, _, ht⟩ := List.mem_filterMap.mp hmem
    by_cases hs : t = "" <;> simp [hs] at ht

/-- Witness for C9 amended: evaluated on a concrete chunk list containing
empty payloads, neither the OpenAI nor the Gemini adapter output contains
the empty string. -/
theorem C9_amended_witness :
    "" ∉ OpenAIProvider.stream_chat [⟨[some ""]⟩, ⟨[]⟩, ⟨[some "x"]⟩] ∧
    "" ∉ GeminiProvider.stream_chat ["", "y"] :=
  C9_amended [⟨[some ""]⟩, ⟨[]⟩, ⟨[some "x"]⟩] ["", "y"]

/-- Claim C1: for every valid request (get_session succeeds for the
caller) naming provider "openai", when the adapter deterministically
yields the fragments "a", "b", "c" with the client connected throughout,
the trace is exactly: the user-message save, the adapter invocation,
three delta events a, b, c in order, the assistant-message save, and the
[DONE] sentinel with nothing after it; the store gains exactly one new
user message (the prompt) and one new assistant message "abc". -/
theorem C1_happy_path (payload : ChatRequest) (db : Store) (uid : Nat) (s : SessionRec)
    (hown : get_session db payload.session_id uid = some s)
    (hprov : payload.provider = "openai") :
    chat_stream (fun _ => false) ⟨["a", "b", "c"], none⟩ payload db uid
      = Except.ok
          ([Act.save "user" payload.prompt,
            Act.invoke payload.prompt payload.model (history_passed_to_adapter payload db uid),
            Act.emit (Event.delta "a"), Act.emit (Event.delta "b"), Act.emit (Event.delta "c"),
            Act.save "assistant" "abc", Act.emit Event.done],
           ⟨db.sessions,
            db.messages
              ++ [⟨payload.session_id, "user", payload.prompt, db.messages.length⟩,
                  ⟨payload.session_id, "assistant", "abc", db.messages.length + 1⟩]⟩) := by
  unfold chat_stream
  rw [hown]
  unfold stream_and_save
  rw [hprov]
  simp [AIProviderFactory.get_provider, stream_chat_accepts_history, relay_no_disconnect,
    finishStream, create_message, List.append_assoc]

/-- Witness for C1: a concrete store with session 1 owned by user 10 and
the concrete request for it. -/
theorem C1_happy_path_witness :
    get_session ⟨[⟨1, 10⟩], []⟩ 1 10 = some ⟨1, 10⟩ ∧
    chat_stream (fun _ => false) ⟨["a", "b", "c"], none⟩ ⟨1, "hi", "openai", "m"⟩
        ⟨[⟨1, 10⟩], []⟩ 10
      = Except.ok
          ([Act.save "user" "hi",
            Act.invoke "hi" "m" [("user", "hi")],
            Act.emit (Event.delta "a"), Act.emit (Event.delta "b"), Act.emit (Event.delta "c"),
            Act.save "assistant" "abc", Act.emit Event.done],
           ⟨[⟨1, 10⟩], [⟨1, "user", "hi", 0⟩, ⟨1, "assistant", "abc", 1⟩]⟩) :=
  ⟨by decide,
   C1_happy_path ⟨1, "hi", "openai", "m"⟩ ⟨[⟨1, 10⟩], []⟩ 10 ⟨1, 10⟩ (by decide) rfl⟩

/-- Claim C7: for every request naming a provider outside the known set,
the factory raises ValueError before constructing any adapter; the
exception is caught, so the trace is exactly the user-message save
followed by one stream-level error event carrying the ValueError text (no
adapter invocation, no delta, no [DONE]), and the store gains only the
user message. The result does not depend on the upstream behaviour or on
the client's connection state, which captures that no adapter is ever
invoked. -/
theorem C7_unknown_provider (is_disconnected : Nat → Bool) (upstream : Upstream)
    (payload : ChatRequest) (db : Store) (uid : Nat)
    (h : payload.provider ∉ (["openai", "gemini", "anthropic", "ollama"] : List String)) :
    stream_and_save is_disconnected upstream payload db uid
      = ([Act.save "user" payload.prompt,
          Act.emit (Event.error ("Unsupported provider: " ++ payload.provider))],
         create_message db "user" payload.session_id payload.prompt uid) := by
  simp only [List.mem_cons, List.not_mem_nil, or_false, not_or] at h
  obtain ⟨h1, h2, h3, h4⟩ := h
  unfold stream_and_save
  simp [AIProviderFactory.get_provider, h1, h2, h3, h4]

/-- Witness for C7: the unknown provider name "mistral". -/
theorem C7_unknown_provider_witness :
    (("mistral" : String) ∉ (["openai", "gemini", "anthropic", "ollama"] : List String)) ∧
    stream_and_save (fun _ => false) ⟨["a"], none⟩ ⟨1, "hi", "mistral", "m"⟩ ⟨[⟨1, 10⟩], []⟩ 10
      = ([Act.save "user" "hi",
          Act.emit (Event.error ("Unsupported provider: " ++ "mistral"))],
         create_message ⟨[⟨1, 10⟩], []⟩ "user" 1 "hi" 10) :=
  ⟨by decide,
   C7_unknown_provider (fun _ => false) ⟨["a"], none⟩ ⟨1, "hi", "mistral", "m"⟩
     ⟨[⟨1, 10⟩], []⟩ 10 (by decide)⟩

/-- Claim C10: for every request naming provider "gemini", "anthropic" or
"ollama", the orchestrator's three-argument stream_chat call does not
match those classes' two-parameter signatures, so it raises TypeError
inside the try block; the trace is exactly the user-message save followed
by one error event (no adapter invocation, no delta, no [DONE]), and the
store gains only the user message, independently of the upstream
behaviour — only the "openai" provider, whose signature has the history
parameter, can stream. -/
theorem C10_arity_mismatch (is_disconnected : Nat → Bool) (upstream : Upstream)
    (payload : ChatRequest) (db : Store) (uid : Nat)
    (h : payload.provider = "gemini" ∨ payload.provider = "anthropic"
         ∨ payload.provider = "ollama") :
    stream_and_save is_disconnected upstream payload db uid
      = ([Act.save "user" payload.prompt, Act.emit (Event.error typeErrorMessage)],
         create_message db "user" payload.session_id payload.prompt uid) := by
  unfold stream_and_save
  rcases h with h | h | h <;> rw [h] <;>
    simp [AIProviderFactory.get_provider, stream_chat_accepts_history]

/-- Witness for C10: the "gemini" provider on a concrete request; the
upstream would yield "a" but is never reached. -/
theorem C10_arity_mismatch_witness :
    stream_and_save (fun _ => false) ⟨["a"], none⟩ ⟨1, "hi", "gemini", "m"⟩ ⟨[⟨1, 10⟩], []⟩ 10
      = ([Act.save "user" "hi", Act.emit (Event.error typeErrorMessage)],
         create_message ⟨[⟨1, 10⟩], []⟩ "user" 1 "hi" 10) :=
  C10_arity_mismatch (fun _ => false) ⟨["a"], none⟩ ⟨1, "hi", "gemini", "m"⟩
    ⟨[⟨1, 10⟩], []⟩ 10 (Or.inl rfl)

/-- Counterexample to claim C3: with provider "openai", the adapter
yielding "a" and then raising "boom", the client does receive the delta
"a" and one error event, but the final store contains NO assistant
message: the except block of stream_and_save skips the persistence lines,
so the accumulated partial text "a" is lost, contrary to the claim. -/
theorem C3_counterexample :
    emittedEvents (stream_and_save (fun _ => false) ⟨["a"], some "boom"⟩
        ⟨1, "hi", "openai", "m"⟩ ⟨[⟨1, 10⟩], []⟩ 10).1
      = [Event.delta "a", Event.error "boom"] ∧
    (stream_and_save (fun _ => false) ⟨["a"], some "boom"⟩
        ⟨1, "hi", "openai", "m"⟩ ⟨[⟨1, 10⟩], []⟩ 10).2.messages.filter
        (fun m => m.role == "assistant") = [] := by
  decide

/-- Claim C3 amended: if the adapter raises after emitting "a" (relayed
and accumulated, client connected), the partial text is NOT persisted —
the store gains only the user message and no assistant message — while
the client receives exactly one delta event "a" followed by exactly one
terminal error event. -/
theorem C3_amended (payload : ChatRequest) (db : Store) (uid : Nat) (emsg : String)
    (hprov : payload.provider = "openai") :
    stream_and_save (fun _ => false) ⟨["a"], some emsg⟩ payload db uid
      = ([Act.save "user" payload.prompt,
          Act.invoke payload.prompt payload.model (history_passed_to_adapter payload db uid),
          Act.emit (Event.delta "a"), Act.emit (Event.error emsg)],
         create_message db "user" payload.session_id payload.prompt uid) := by
  unfold stream_and_save
  rw [hprov]
  simp [AIProviderFactory.get_provider, stream_chat_accepts_history, relay_no_disconnect]

/-- Witness for C3 amended: concrete request, adapter failing with
str(e) = "quota exceeded" after yielding "a". -/
theorem C3_amended_witness :
    stream_and_save (fun _ => false) ⟨["a"], some "quota exceeded"⟩
        ⟨2, "hello", "openai", "m"⟩ ⟨[⟨2, 10⟩], []⟩ 10
      = ([Act.save "user" "hello",
          Act.invoke "hello" "m" [("user", "hello")],
          Act.emit (Event.delta "a"), Act.emit (Event.error "quota exceeded")],
         create_message ⟨[⟨2, 10⟩], []⟩ "user" 2 "hello" 10) :=
  C3_amended ⟨2, "hello", "openai", "m"⟩ ⟨[⟨2, 10⟩], []⟩ 10 "quota exceeded" rfl

/-- Counterexample to claim C4: the disconnect poll returns false for the
first fragment "a" and true from the second on, so the client received
exactly "a" before disconnecting; yet the trace still contains a further
client-facing event after the disconnect is detected — the [DONE]
sentinel yielded by line 203 — contradicting "no further client-facing
event of any kind is emitted". -/
theorem C4_counterexample :
    emittedEvents (stream_and_save (fun i => decide (1 ≤ i)) ⟨["a", "b", "c"], none⟩
        ⟨1, "hi", "openai", "m"⟩ ⟨[⟨1, 10⟩], []⟩ 10).1
      = [Event.delta "a", Event.done] := by
  decide

/-- Claim C4 amended: if the client disconnects after receiving fragment
"a" and before "b", the orchestrator stops pulling further fragments
(fragment "b" is dropped, "c" never pulled, no further delta or error
event), the store ends with an assistant message whose content is exactly
"a", but the [DONE] sentinel is still yielded into the closed stream
after the disconnect is detected. -/
theorem C4_amended (payload : ChatRequest) (db : Store) (uid : Nat)
    (hprov : payload.provider = "openai") :
    stream_and_save (fun i => decide (1 ≤ i)) ⟨["a", "b", "c"], none⟩ payload db uid
      = ([Act.save "user" payload.prompt,
          Act.invoke payload.prompt payload.model (history_passed_to_adapter payload db uid),
          Act.emit (Event.delta "a"),
          Act.save "assistant" "a", Act.emit Event.done],
         ⟨db.sessions,
          db.messages
            ++ [⟨payload.session_id, "user", payload.prompt, db.messages.length⟩,
                ⟨payload.session_id, "assistant", "a", db.messages.length + 1⟩]⟩) := by
  unfold stream_and_save
  rw [hprov]
  simp [AIProviderFactory.get_provider, stream_chat_accepts_history, relay,
    finishStream, create_message, List.append_assoc]

/-- Witness for C4 amended: concrete request against session 3. -/
theorem C4_amended_witness :
    stream_and_save (fun i => decide (1 ≤ i)) ⟨["a", "b", "c"], none⟩
        ⟨3, "hey", "openai", "m"⟩ ⟨[⟨3, 10⟩], []⟩ 10
      = ([Act.save "user" "hey",
          Act.invoke "hey" "m" [("user", "hey")],
          Act.emit (Event.delta "a"),
          Act.save "assistant" "a", Act.emit Event.done],
         ⟨[⟨3, 10⟩], [⟨3, "user", "hey", 0⟩, ⟨3, "assistant", "a", 1⟩]⟩) :=
  C4_amended ⟨3, "hey", "openai", "m"⟩ ⟨[⟨3, 10⟩], []⟩ 10 rfl

/-- Counterexample to claim C5: when the adapter raises an exception
whose str(e) is "Error code: 401 - Incorrect API key: sk-proj-12345",
the error event yielded to the client carries exactly that raw upstream
exception text — no sanitization is applied. -/
theorem C5_counterexample :
    Act.emit (Event.error "Error code: 401 - Incorrect API key: sk-proj-12345")
      ∈ (stream_and_save (fun _ => false)
          ⟨[], some "Error code: 401 - Incorrect API key: sk-proj-12345"⟩
          ⟨1, "hi", "openai", "m"⟩ ⟨[⟨1, 10⟩], []⟩ 10).1 := by
  decide

/-- Claim C5 amended: for every upstream failure, the stream-level error
event sent to the client carries the raw exception text str(e) verbatim
(line 209 yields json of "error": str(e)); the trace ends with exactly
that error event and the partial output is not persisted. -/
theorem C5_amended (payload : ChatRequest) (db : Store) (uid : Nat)
    (frags : List String) (raw : String)
    (hprov : payload.provider = "openai") :
    stream_and_save (fun _ => false) ⟨frags, some raw⟩ payload db uid
      = ([Act.save "user" payload.prompt,
          Act.invoke payload.prompt payload.model (history_passed_to_adapter payload db uid)]
          ++ frags.map (fun t => Act.emit (Event.delta t))
          ++ [Act.emit (Event.error raw)],
         create_message db "user" payload.session_id payload.prompt uid) := by
  unfold stream_and_save
  rw [hprov]
  simp [AIProviderFactory.get_provider, stream_chat_accepts_history, relay_no_disconnect]

/-- Witness for C5 amended: the raw upstream message "connection reset by
peer at 10.0.0.5:443" reaches the client verbatim. -/
theorem C5_amended_witness :
    stream_and_save (fun _ => false) ⟨["x"], some "connection reset by peer at 10.0.0.5:443"⟩
        ⟨4, "yo", "openai", "m"⟩ ⟨[⟨4, 10⟩], []⟩ 10
      = ([Act.save "user" "yo",
          Act.invoke "yo" "m" [("user", "yo")],
          Act.emit (Event.delta "x"),
          Act.emit (Event.error "connection reset by peer at 10.0.0.5:443")],
         create_message ⟨[⟨4, 10⟩], []⟩ "user" 4 "yo" 10) :=
  C5_amended ⟨4, "yo", "openai", "m"⟩ ⟨[⟨4, 10⟩], []⟩ 10 ["x"]
    "connection reset by peer at 10.0.0.5:443" rfl
